import Mathlib

/-!
Shallow embedding of the TSL light-sensor driver (cayenne_tsl/__init__.py).

Modelling conventions:
* Register bytes are natural numbers; the configuration register always
  holds an 8-bit value, so the Python read-modify-write expression
  `current & ~mask` is embedded as `current &&& (0xFF ^^^ mask)`.
* Python floats are embedded as exact rationals (ℚ).  The one genuinely
  real-valued operation, the power term `channel_ratio ** 1.4` in the
  lowest band of each lux formula, is abstracted as an explicit function
  parameter `pow14 : ℚ → ℚ`; theorems that need facts about it take as
  hypotheses only properties that the real function x ↦ x^1.4 satisfies
  on the relevant interval (for instance 0 ≤ x^1.4 ≤ (4/5)·x on
  [0, 0.52], since x^0.4 ≤ 4/5 there).
* Methods that raise ValueError are embedded as Option-valued functions
  returning `none` on the raising path.
* A setter that mutates device state (configuration byte, cached
  multiplier) is embedded as a function returning the new state.
-/

/-- Register and value constants of the base class TSL_LIGHT_X. -/
def VAL_COMMAND : ℕ := 0x80

def REG_CONTROL : ℕ := 0x00 ||| VAL_COMMAND

def REG_CONFIG : ℕ := 0x01 ||| VAL_COMMAND

def VAL_PWON : ℕ := 0x03

def VAL_PWOFF : ℕ := 0x00

/-- Sentinel TSL_LIGHT_X.VAL_INVALID = -1, used both for an undefined
integration time and for an invalid lux reading. -/
def VAL_INVALID : ℤ := -1

/-- TSL2561X bit-field constants. -/
def MASK_GAIN : ℕ := 0x10

def MASK_TIME : ℕ := 0x03

def VAL_TIME_402_MS : ℕ := 0x02

def VAL_TIME_101_MS : ℕ := 0x01

def VAL_TIME_14_MS : ℕ := 0x00

/-- TSL4531 bit-field constants. -/
def TSL4531_VAL_TIME_400_MS : ℕ := 0x00

def TSL4531_VAL_TIME_200_MS : ℕ := 0x01

def TSL4531_VAL_TIME_100_MS : ℕ := 0x02

def MASK_TCNTRL : ℕ := 0x03

/-- TSL2561X._set_time: validates the requested integration time, picks the
encoded bit pattern and the cached time multiplier, and performs the
read-modify-write on the configuration byte.  Returns the written
configuration byte together with the new `time_multiplier`, or `none` on the
ValueError path. -/
def tsl2561X_set_time (time : ℤ) (current_byte_config : ℕ) : Option (ℕ × ℚ) :=
  if ¬ (time = 14 ∨ time = 101 ∨ time = 402) then none
  else
    let bits_time : ℕ :=
      if time = 402 then VAL_TIME_402_MS
      else if time = 101 then VAL_TIME_101_MS
      else VAL_TIME_14_MS
    let time_multiplier : ℚ :=
      if time = 402 then 1
      else if time = 101 then 322 / 81
      else 322 / 11
    let new_byte_time := bits_time &&& MASK_TIME
    let new_byte_config := (current_byte_config &&& (0xFF ^^^ MASK_TIME)) ||| new_byte_time
    some (new_byte_config, time_multiplier)

/-- TSL2561X._get_time: decodes the masked time bits of the configuration
byte back to the integration time in ms, or VAL_INVALID for a pattern the
encoder never writes. -/
def tsl2561X_get_time (current_byte_config : ℕ) : ℤ :=
  let bits_time := current_byte_config &&& MASK_TIME
  if bits_time = VAL_TIME_402_MS then 402
  else if bits_time = VAL_TIME_101_MS then 101
  else if bits_time = VAL_TIME_14_MS then 14
  else VAL_INVALID

/-- TSL2561X.set_gain: validates the gain, picks the encoded gain bit and the
cached gain multiplier, and performs the read-modify-write on the
configuration byte.  Returns the written configuration byte together with
the new `gain_multiplier`, or `none` on the ValueError path. -/
def tsl2561X_set_gain (gain : ℤ) (current_byte_config : ℕ) : Option (ℕ × ℚ) :=
  if ¬ (gain = 1 ∨ gain = 16) then none
  else
    let bit_gain : ℕ := if gain = 1 then 0 else 1
    let gain_multiplier : ℚ := if gain = 1 then 16 else 1
    let new_byte_gain := (bit_gain <<< 4) &&& MASK_GAIN
    let new_byte_config := (current_byte_config &&& (0xFF ^^^ MASK_GAIN)) ||| new_byte_gain
    some (new_byte_config, gain_multiplier)

/-- TSL2561X.get_gain: a set MASK_GAIN bit means gain 16, a clear bit gain 1. -/
def tsl2561X_get_gain (current_byte_config : ℕ) : ℤ :=
  if current_byte_config &&& MASK_GAIN ≠ 0 then 16 else 1

/-- TSL4531._set_time: same read-modify-write shape as the TSL2561 codec but
with times {100, 200, 400} ms, patterns {0x02, 0x01, 0x00} and multipliers
{4, 2, 1}. -/
def tsl4531_set_time (time : ℤ) (current_byte_config : ℕ) : Option (ℕ × ℚ) :=
  if ¬ (time = 100 ∨ time = 200 ∨ time = 400) then none
  else
    let bits_time : ℕ :=
      if time = 400 then TSL4531_VAL_TIME_400_MS
      else if time = 200 then TSL4531_VAL_TIME_200_MS
      else TSL4531_VAL_TIME_100_MS
    let time_multiplier : ℚ :=
      if time = 400 then 1
      else if time = 200 then 2
      else 4
    let new_byte_time := bits_time &&& MASK_TCNTRL
    let new_byte_config := (current_byte_config &&& (0xFF ^^^ MASK_TCNTRL)) ||| new_byte_time
    some (new_byte_config, time_multiplier)

/-- TSL4531._get_time: decodes the masked TCNTRL bits back to the integration
time in ms, or VAL_INVALID for the pattern 0x03 that the encoder never
writes. -/
def tsl4531_get_time (current_byte_config : ℕ) : ℤ :=
  let bits_time := current_byte_config &&& MASK_TCNTRL
  if bits_time = TSL4531_VAL_TIME_400_MS then 400
  else if bits_time = TSL4531_VAL_TIME_200_MS then 200
  else if bits_time = TSL4531_VAL_TIME_100_MS then 100
  else VAL_INVALID

/-- TSL2561CS._calculate_lux.  `pow14 r` stands for the float power
`r ** 1.4` of the source; the variable `r` is `channel_ratio` there.  The
guard on channel 0 returns the VAL_INVALID sentinel instead of dividing by
zero. -/
def tsl2561cs_calculate_lux (pow14 : ℚ → ℚ) (channel0_value channel1_value : ℚ) : ℚ :=
  if channel0_value = 0 then (VAL_INVALID : ℚ)
  else
    let r := channel1_value / channel0_value
    if 0 ≤ r ∧ r ≤ 0.52 then
      0.0315 * channel0_value - 0.0593 * channel0_value * pow14 r
    else if 0.52 < r ∧ r ≤ 0.65 then
      0.0229 * channel0_value - 0.0291 * channel1_value
    else if 0.65 < r ∧ r ≤ 0.80 then
      0.0157 * channel0_value - 0.0180 * channel1_value
    else if 0.80 < r ∧ r ≤ 1.30 then
      0.00338 * channel0_value - 0.00260 * channel1_value
    else 0

/-- TSL2561T._calculate_lux (also used by the default TSL2561 class), with
the T-package coefficient table; same shape as the CS version. -/
def tsl2561t_calculate_lux (pow14 : ℚ → ℚ) (channel0_value channel1_value : ℚ) : ℚ :=
  if channel0_value = 0 then (VAL_INVALID : ℚ)
  else
    let r := channel1_value / channel0_value
    if 0 ≤ r ∧ r ≤ 0.50 then
      0.0304 * channel0_value - 0.062 * channel0_value * pow14 r
    else if 0.50 < r ∧ r ≤ 0.61 then
      0.0224 * channel0_value - 0.031 * channel1_value
    else if 0.61 < r ∧ r ≤ 0.80 then
      0.0128 * channel0_value - 0.0153 * channel1_value
    else if 0.80 < r ∧ r ≤ 1.30 then
      0.00146 * channel0_value - 0.00112 * channel1_value
    else 0

/-- Little-endian channel word from the two register bytes (low byte first,
as in `bytes[1] << 8 | bytes[0]`). -/
def word_le (b0 b1 : ℕ) : ℕ := (b1 <<< 8) ||| b0

/-- Cache update of TSL2561X.get_lux: `if value != VAL_INVALID:
LUX_VALUE = value` — a non-sentinel value replaces the cache, the sentinel
leaves it untouched. -/
def lux_cache_update (value lux_value : ℚ) : ℚ :=
  if value ≠ (VAL_INVALID : ℚ) then value else lux_value

/-- Rounding to one decimal place, embedding the one-decimal float
formatting applied to the reported reading. -/
def round1 (x : ℚ) : ℚ := ((round (x * 10) : ℤ) : ℚ) / 10

/-- TSL2561X.get_lux: reads the two channel words, scales them by
`time_multiplier * gain_multiplier`, runs the package lux formula, applies
the stale-value-on-sentinel cache policy, and reports the cached value
rounded to one decimal with the ("lum", "lux") tag.  The result pairs the
reported tuple with the new cached LUX_VALUE. -/
def tsl2561X_get_lux (calculate_lux : ℚ → ℚ → ℚ) (time_multiplier gain_multiplier : ℚ)
    (ch0_b0 ch0_b1 ch1_b0 ch1_b1 : ℕ) (lux_value : ℚ) : (ℚ × String × String) × ℚ :=
  let ch0_word := word_le ch0_b0 ch0_b1
  let ch1_word := word_le ch1_b0 ch1_b1
  let scaling := time_multiplier * gain_multiplier
  let value := calculate_lux (scaling * ch0_word) (scaling * ch1_word)
  let new_lux_value := lux_cache_update value lux_value
  ((round1 new_lux_value, "lum", "lux"), new_lux_value)

/-- TSL4531.get_lux: the photometric-only variant, `time_multiplier` times
the little-endian data word, no ratio logic and no sentinel. -/
def tsl4531_get_lux (time_multiplier : ℚ) (b0 b1 : ℕ) : ℚ × String × String :=
  (time_multiplier * (word_le b0 b1 : ℕ), "lum", "lux")

/-! Helper lemmas on natural-number bitwise operations, shared by the
register-codec theorems. -/

lemma or_and_distrib_nat (a b m : ℕ) : (a ||| b) &&& m = (a &&& m) ||| (b &&& m) := by
  apply Nat.eq_of_testBit_eq
  intro i
  simp [Nat.testBit_and, Nat.testBit_or, Bool.and_or_distrib_right]

lemma and_assoc_nat (a b m : ℕ) : (a &&& b) &&& m = a &&& (b &&& m) := by
  apply Nat.eq_of_testBit_eq
  intro i
  simp [Nat.testBit_and, Bool.and_assoc]

lemma and252_3 : (252 &&& 3 : ℕ) = 0 := rfl

lemma and239_16 : (239 &&& 16 : ℕ) = 0 := rfl

lemma and252_252 : (252 &&& 252 : ℕ) = 252 := rfl

lemma and239_239 : (239 &&& 239 : ℕ) = 239 := rfl

lemma and3_0 : (0 &&& 3 : ℕ) = 0 := rfl

lemma and3_1 : (1 &&& 3 : ℕ) = 1 := rfl

lemma and3_2 : (2 &&& 3 : ℕ) = 2 := rfl

lemma and16_0 : (0 &&& 16 : ℕ) = 0 := rfl

lemma and16_16 : (16 &&& 16 : ℕ) = 16 := rfl

lemma rmw_mask3 (c b : ℕ) : ((c &&& 252) ||| b) &&& 3 = b &&& 3 := by
  rw [or_and_distrib_nat, and_assoc_nat, and252_3, Nat.and_zero, Nat.zero_or]

lemma rmw_mask16 (c b : ℕ) : ((c &&& 239) ||| b) &&& 16 = b &&& 16 := by
  rw [or_and_distrib_nat, and_assoc_nat, and239_16, Nat.and_zero, Nat.zero_or]

lemma rmw_keep3 (c b : ℕ) (hb : b &&& 252 = 0) :
    ((c &&& 252) ||| b) &&& 252 = c &&& 252 := by
  rw [or_and_distrib_nat, and_assoc_nat, and252_252, hb, Nat.or_zero]

lemma rmw_keep16 (c b : ℕ) (hb : b &&& 239 = 0) :
    ((c &&& 239) ||| b) &&& 239 = c &&& 239 := by
  rw [or_and_distrib_nat, and_assoc_nat, and239_239, hb, Nat.or_zero]

lemma and252_and3 (c : ℕ) : (c &&& 252) &&& 3 = 0 := by
  rw [and_assoc_nat, and252_3, Nat.and_zero]

lemma and239_and16 (c : ℕ) : (c &&& 239) &&& 16 = 0 := by
  rw [and_assoc_nat, and239_16, Nat.and_zero]

/-- C1: with channel0 equal to zero, both the CS and the T/default lux
calculations return the sentinel -1 whatever channel1 is (the division by
zero is never reached, the functions being total). -/
theorem calculate_lux_zero_channel0_sentinel (pow14 : ℚ → ℚ) (channel1_value : ℚ) :
    tsl2561cs_calculate_lux pow14 0 channel1_value = (VAL_INVALID : ℚ) ∧
    tsl2561t_calculate_lux pow14 0 channel1_value = (VAL_INVALID : ℚ) := by
  constructor <;> simp [tsl2561cs_calculate_lux, tsl2561t_calculate_lux]

/-- C7: a configuration byte whose masked time bits equal 0x03 — the one
pattern neither time encoder ever writes — decodes to the sentinel -1 on
both chip families (and the decoders are total, so they never raise). -/
theorem get_time_unwritten_pattern_sentinel (current_byte_config : ℕ)
    (h : current_byte_config &&& 0x03 = 0x03) :
    tsl2561X_get_time current_byte_config = VAL_INVALID ∧
    tsl4531_get_time current_byte_config = VAL_INVALID := by
  constructor <;>
    simp [tsl2561X_get_time, tsl4531_get_time, MASK_TIME, MASK_TCNTRL, h,
      VAL_TIME_402_MS, VAL_TIME_101_MS, VAL_TIME_14_MS,
      TSL4531_VAL_TIME_400_MS, TSL4531_VAL_TIME_200_MS, TSL4531_VAL_TIME_100_MS]

theorem get_time_unwritten_pattern_sentinel_witness :
    tsl2561X_get_time 0x07 = VAL_INVALID ∧ tsl4531_get_time 0x07 = VAL_INVALID :=
  get_time_unwritten_pattern_sentinel 0x07 (by decide)

/-- C5: for every supported discrete integration time of either chip family
and every prior configuration byte, set_time succeeds and a subsequent
get_time on the written byte returns the same time. -/
theorem set_time_get_time_roundtrip (current_byte_config : ℕ) (t : ℤ) :
    (t = 14 ∨ t = 101 ∨ t = 402 →
      ∃ p : ℕ × ℚ, tsl2561X_set_time t current_byte_config = some p ∧
        tsl2561X_get_time p.1 = t) ∧
    (t = 100 ∨ t = 200 ∨ t = 400 →
      ∃ p : ℕ × ℚ, tsl4531_set_time t current_byte_config = some p ∧
        tsl4531_get_time p.1 = t) := by
  constructor
  · rintro (rfl | rfl | rfl)
    · exact ⟨((current_byte_config &&& 252) ||| 0, 322 / 11), by rfl, by
        simp [tsl2561X_get_time, MASK_TIME, rmw_mask3, and3_0, and252_and3,
          VAL_TIME_402_MS, VAL_TIME_101_MS, VAL_TIME_14_MS]⟩
    · exact ⟨((current_byte_config &&& 252) ||| 1, 322 / 81), by rfl, by
        simp [tsl2561X_get_time, MASK_TIME, rmw_mask3, and3_1,
          VAL_TIME_402_MS, VAL_TIME_101_MS, VAL_TIME_14_MS]⟩
    · exact ⟨((current_byte_config &&& 252) ||| 2, 1), by rfl, by
        simp [tsl2561X_get_time, MASK_TIME, rmw_mask3, and3_2,
          VAL_TIME_402_MS, VAL_TIME_101_MS, VAL_TIME_14_MS]⟩
  · rintro (rfl | rfl | rfl)
    · exact ⟨((current_byte_config &&& 252) ||| 2, 4), by rfl, by
        simp [tsl4531_get_time, MASK_TCNTRL, rmw_mask3, and3_2,
          TSL4531_VAL_TIME_400_MS, TSL4531_VAL_TIME_200_MS, TSL4531_VAL_TIME_100_MS]⟩
    · exact ⟨((current_byte_config &&& 252) ||| 1, 2), by rfl, by
        simp [tsl4531_get_time, MASK_TCNTRL, rmw_mask3, and3_1,
          TSL4531_VAL_TIME_400_MS, TSL4531_VAL_TIME_200_MS, TSL4531_VAL_TIME_100_MS]⟩
    · exact ⟨((current_byte_config &&& 252) ||| 0, 1), by rfl, by
        simp [tsl4531_get_time, MASK_TCNTRL, rmw_mask3, and3_0, and252_and3,
          TSL4531_VAL_TIME_400_MS, TSL4531_VAL_TIME_200_MS, TSL4531_VAL_TIME_100_MS]⟩

theorem set_time_get_time_roundtrip_witness :
    (∃ p : ℕ × ℚ, tsl2561X_set_time 402 0xAB = some p ∧ tsl2561X_get_time p.1 = 402) ∧
    (∃ p : ℕ × ℚ, tsl4531_set_time 200 0xAB = some p ∧ tsl4531_get_time p.1 = 200) :=
  ⟨(set_time_get_time_roundtrip 0xAB 402).1 (Or.inr (Or.inr rfl)),
   (set_time_get_time_roundtrip 0xAB 200).2 (Or.inr (Or.inl rfl))⟩

/-- C6: for a gain in {1, 16} and every prior configuration byte, set_gain
succeeds and a subsequent get_gain on the written byte returns the same
gain; for every other gain, set_gain fails (the ValueError path). -/
theorem set_gain_get_gain_roundtrip (current_byte_config : ℕ) (g : ℤ) :
    (g = 1 ∨ g = 16 →
      ∃ p : ℕ × ℚ, tsl2561X_set_gain g current_byte_config = some p ∧
        tsl2561X_get_gain p.1 = g) ∧
    (¬ (g = 1 ∨ g = 16) → tsl2561X_set_gain g current_byte_config = none) := by
  constructor
  · rintro (rfl | rfl)
    · exact ⟨((current_byte_config &&& 239) ||| 0, 16), by rfl, by
        simp [tsl2561X_get_gain, MASK_GAIN, rmw_mask16, and16_0, and239_and16]⟩
    · exact ⟨((current_byte_config &&& 239) ||| 16, 1), by rfl, by
        simp [tsl2561X_get_gain, MASK_GAIN, rmw_mask16, and16_16]⟩
  · intro h
    simp [tsl2561X_set_gain, h]

theorem set_gain_get_gain_roundtrip_witness :
    (∃ p : ℕ × ℚ, tsl2561X_set_gain 16 0xAB = some p ∧ tsl2561X_get_gain p.1 = 16) ∧
    tsl2561X_set_gain 5 0xAB = none :=
  ⟨(set_gain_get_gain_roundtrip 0xAB 16).1 (Or.inr rfl),
   (set_gain_get_gain_roundtrip 0xAB 5).2 (by decide)⟩

/-- C8: every successful set_time write changes the configuration byte only
in the time mask bits 0x03, and every successful set_gain write only in the
gain mask bit 0x10: the bits outside the mask (those selected by 252,
respectively 239, on an 8-bit register) are copied unchanged from the byte
that was read. -/
theorem set_writes_touch_only_masked_bits (current_byte_config : ℕ) (t g t4 : ℤ)
    (pt pg p4 : ℕ × ℚ)
    (ht : tsl2561X_set_time t current_byte_config = some pt)
    (hg : tsl2561X_set_gain g current_byte_config = some pg)
    (h4 : tsl4531_set_time t4 current_byte_config = some p4) :
    pt.1 &&& 252 = current_byte_config &&& 252 ∧
    pg.1 &&& 239 = current_byte_config &&& 239 ∧
    p4.1 &&& 252 = current_byte_config &&& 252 := by
  refine ⟨?_, ?_, ?_⟩
  · simp only [tsl2561X_set_time] at ht
    split_ifs at ht with h1 h2 h3
    · injection ht with h
      subst h
      show ((current_byte_config &&& 252) ||| 2) &&& 252 = current_byte_config &&& 252
      exact rmw_keep3 current_byte_config 2 rfl
    · injection ht with h
      subst h
      show ((current_byte_config &&& 252) ||| 1) &&& 252 = current_byte_config &&& 252
      exact rmw_keep3 current_byte_config 1 rfl
    · injection ht with h
      subst h
      show ((current_byte_config &&& 252) ||| 0) &&& 252 = current_byte_config &&& 252
      exact rmw_keep3 current_byte_config 0 rfl
  · simp only [tsl2561X_set_gain] at hg
    split_ifs at hg with h1 h2
    · injection hg with h
      subst h
      show ((current_byte_config &&& 239) ||| 0) &&& 239 = current_byte_config &&& 239
      exact rmw_keep16 current_byte_config 0 rfl
    · injection hg with h
      subst h
      show ((current_byte_config &&& 239) ||| 16) &&& 239 = current_byte_config &&& 239
      exact rmw_keep16 current_byte_config 16 rfl
  · simp only [tsl4531_set_time] at h4
    split_ifs at h4 with h1 h2 h3
    · injection h4 with h
      subst h
      show ((current_byte_config &&& 252) ||| 0) &&& 252 = current_byte_config &&& 252
      exact rmw_keep3 current_byte_config 0 rfl
    · injection h4 with h
      subst h
      show ((current_byte_config &&& 252) ||| 1) &&& 252 = current_byte_config &&& 252
      exact rmw_keep3 current_byte_config 1 rfl
    · injection h4 with h
      subst h
      show ((current_byte_config &&& 252) ||| 2) &&& 252 = current_byte_config &&& 252
      exact rmw_keep3 current_byte_config 2 rfl

theorem set_writes_touch_only_masked_bits_witness :
    (254 &&& 252 : ℕ) = 255 &&& 252 ∧ (239 &&& 239 : ℕ) = 255 &&& 239 ∧
    (252 &&& 252 : ℕ) = 255 &&& 252 :=
  set_writes_touch_only_masked_bits 255 402 1 400 (254, 1) (239, 16) (252, 1) rfl rfl rfl

lemma opt_snd {A p : ℕ × ℚ} (h : some A = some p) : p.2 = A.2 := by
  cases h; rfl

/-- C9: a successful setter leaves the cached multiplier consistent with the
configured value — time_multiplier 1, 322/81, 322/11 for 402, 101, 14 ms on
TSL2561, 1, 2, 4 for 400, 200, 100 ms on TSL4531, and gain_multiplier 16
for gain 1, 1 for gain 16 — the multiplier being produced by the setter
itself, before it returns. -/
theorem setter_multipliers_consistent (current_byte_config : ℕ) :
    (∀ p : ℕ × ℚ, tsl2561X_set_time 402 current_byte_config = some p → p.2 = 1) ∧
    (∀ p : ℕ × ℚ, tsl2561X_set_time 101 current_byte_config = some p → p.2 = 322 / 81) ∧
    (∀ p : ℕ × ℚ, tsl2561X_set_time 14 current_byte_config = some p → p.2 = 322 / 11) ∧
    (∀ p : ℕ × ℚ, tsl4531_set_time 400 current_byte_config = some p → p.2 = 1) ∧
    (∀ p : ℕ × ℚ, tsl4531_set_time 200 current_byte_config = some p → p.2 = 2) ∧
    (∀ p : ℕ × ℚ, tsl4531_set_time 100 current_byte_config = some p → p.2 = 4) ∧
    (∀ p : ℕ × ℚ, tsl2561X_set_gain 1 current_byte_config = some p → p.2 = 16) ∧
    (∀ p : ℕ × ℚ, tsl2561X_set_gain 16 current_byte_config = some p → p.2 = 1) := by
  refine ⟨fun p hp => ?_, fun p hp => ?_, fun p hp => ?_, fun p hp => ?_,
    fun p hp => ?_, fun p hp => ?_, fun p hp => ?_, fun p hp => ?_⟩
  · exact opt_snd ((rfl : tsl2561X_set_time 402 current_byte_config =
      some ((current_byte_config &&& 252) ||| 2, 1)).symm.trans hp)
  · exact opt_snd ((rfl : tsl2561X_set_time 101 current_byte_config =
      some ((current_byte_config &&& 252) ||| 1, 322 / 81)).symm.trans hp)
  · exact opt_snd ((rfl : tsl2561X_set_time 14 current_byte_config =
      some ((current_byte_config &&& 252) ||| 0, 322 / 11)).symm.trans hp)
  · exact opt_snd ((rfl : tsl4531_set_time 400 current_byte_config =
      some ((current_byte_config &&& 252) ||| 0, 1)).symm.trans hp)
  · exact opt_snd ((rfl : tsl4531_set_time 200 current_byte_config =
      some ((current_byte_config &&& 252) ||| 1, 2)).symm.trans hp)
  · exact opt_snd ((rfl : tsl4531_set_time 100 current_byte_config =
      some ((current_byte_config &&& 252) ||| 2, 4)).symm.trans hp)
  · exact opt_snd ((rfl : tsl2561X_set_gain 1 current_byte_config =
      some ((current_byte_config &&& 239) ||| 0, 16)).symm.trans hp)
  · exact opt_snd ((rfl : tsl2561X_set_gain 16 current_byte_config =
      some ((current_byte_config &&& 239) ||| 16, 1)).symm.trans hp)

theorem setter_multipliers_consistent_witness :
    ((2 : ℕ), (1 : ℚ)).2 = 1 ∧ ((1 : ℕ), (322 / 81 : ℚ)).2 = 322 / 81 ∧
    ((0 : ℕ), (16 : ℚ)).2 = 16 :=
  ⟨(setter_multipliers_consistent 0).1 (2, 1) rfl,
   (setter_multipliers_consistent 0).2.1 (1, 322 / 81) rfl,
   (setter_multipliers_consistent 0).2.2.2.2.2.2.1 (0, 16) rfl⟩

/-- C2: get_lux applies the stale-value-on-error policy: when the computed
value is the sentinel -1 the cache is left unchanged (in particular a read
with channel0 bytes zero reports the previous cached value, not zero and
not the sentinel), otherwise the cache becomes the computed value; in every
case the reported reading is the resulting cached value rounded to one
decimal place and tagged ("lum", "lux"). -/
theorem get_lux_stale_value_policy (calculate_lux : ℚ → ℚ → ℚ)
    (time_multiplier gain_multiplier : ℚ) (ch0_b0 ch0_b1 ch1_b0 ch1_b1 : ℕ)
    (lux_value : ℚ) :
    (tsl2561X_get_lux calculate_lux time_multiplier gain_multiplier
        ch0_b0 ch0_b1 ch1_b0 ch1_b1 lux_value =
      (let value := calculate_lux
          (time_multiplier * gain_multiplier * (word_le ch0_b0 ch0_b1 : ℕ))
          (time_multiplier * gain_multiplier * (word_le ch1_b0 ch1_b1 : ℕ))
       let new_lux_value := if value = (-1 : ℚ) then lux_value else value
       ((round1 new_lux_value, "lum", "lux"), new_lux_value))) ∧
    (∀ pow14 : ℚ → ℚ,
      tsl2561X_get_lux (tsl2561cs_calculate_lux pow14) time_multiplier gain_multiplier
        0 0 ch1_b0 ch1_b1 lux_value = ((round1 lux_value, "lum", "lux"), lux_value)) ∧
    (∀ pow14 : ℚ → ℚ,
      tsl2561X_get_lux (tsl2561t_calculate_lux pow14) time_multiplier gain_multiplier
        0 0 ch1_b0 ch1_b1 lux_value = ((round1 lux_value, "lum", "lux"), lux_value)) := by
  refine ⟨?_, ?_, ?_⟩
  · simp only [tsl2561X_get_lux, lux_cache_update, VAL_INVALID]
    norm_num [ite_not]
  · intro pow14
    have hw : word_le 0 0 = 0 := rfl
    simp [tsl2561X_get_lux, hw, tsl2561cs_calculate_lux, lux_cache_update, VAL_INVALID]
  · intro pow14
    have hw : word_le 0 0 = 0 := rfl
    simp [tsl2561X_get_lux, hw, tsl2561t_calculate_lux, lux_cache_update, VAL_INVALID]

/-- C3: in the CS lux formula a channel ratio of exactly 0.52 still falls in
the first band (inclusive upper boundary), evaluating to
0.0315*c0 - 0.0593*c0*(0.52^1.4), while every ratio strictly above 0.52 and
at most 0.65 falls in the second band 0.0229*c0 - 0.0291*c1. -/
theorem cs_band_boundary (pow14 : ℚ → ℚ) (c0 ratio2 : ℚ) (h0 : 0 < c0)
    (hr1 : 0.52 < ratio2) (hr2 : ratio2 ≤ 0.65) :
    tsl2561cs_calculate_lux pow14 c0 (0.52 * c0) =
      0.0315 * c0 - 0.0593 * c0 * pow14 0.52 ∧
    tsl2561cs_calculate_lux pow14 c0 (ratio2 * c0) =
      0.0229 * c0 - 0.0291 * (ratio2 * c0) := by
  have hne : c0 ≠ 0 := ne_of_gt h0
  constructor
  · have hr : (0.52 * c0) / c0 = 0.52 := by field_simp
    norm_num [tsl2561cs_calculate_lux, hne, hr]
  · have hr : (ratio2 * c0) / c0 = ratio2 := by field_simp
    have hnot1 : ¬ (0 ≤ ratio2 ∧ ratio2 ≤ 0.52) := fun h => absurd h.2 (not_le.mpr hr1)
    have hband2 : 0.52 < ratio2 ∧ ratio2 ≤ 0.65 := ⟨hr1, hr2⟩
    simp only [tsl2561cs_calculate_lux]
    rw [if_neg hne, hr, if_neg hnot1, if_pos hband2]

theorem cs_band_boundary_witness :
    tsl2561cs_calculate_lux (fun x => x) 100 (0.52 * 100) =
      0.0315 * 100 - 0.0593 * 100 * (0.52 : ℚ) ∧
    tsl2561cs_calculate_lux (fun x => x) 100 (0.53 * 100) =
      0.0229 * 100 - 0.0291 * ((0.53 : ℚ) * 100) :=
  cs_band_boundary (fun x => x) 100 0.53 (by norm_num) (by norm_num) (by norm_num)

/-- C4: with integration time 402 ms (time_multiplier 1) and gain 1
(gain_multiplier 16), raw little-endian channel words 2908 (bytes 0x5C,
0x0B) and 727 (bytes 0xD7, 0x02) scale to 46528 and 11632, the ratio is
0.25, and get_lux caches and reports the CS band-1 value
0.0315*46528 - 0.0593*46528*(0.25^1.4), the report rounded to one decimal
place.  The hypotheses bound pow14 0.25, standing for the real 0.25^1.4
(which is about 0.1436). -/
theorem get_lux_reference_reading (pow14 : ℚ → ℚ) (lux_value : ℚ)
    (hp0 : 0 ≤ pow14 0.25) (hp1 : pow14 0.25 ≤ 1 / 2) :
    tsl2561X_get_lux (tsl2561cs_calculate_lux pow14) 1 16 0x5C 0x0B 0xD7 0x02 lux_value =
      ((round1 (0.0315 * 46528 - 0.0593 * 46528 * pow14 0.25), "lum", "lux"),
        0.0315 * 46528 - 0.0593 * 46528 * pow14 0.25) := by
  have hw0 : word_le 0x5C 0x0B = 2908 := rfl
  have hw1 : word_le 0xD7 0x02 = 727 := rfl
  have e0 : (1 : ℚ) * 16 * ((word_le 0x5C 0x0B : ℕ) : ℚ) = 46528 := by
    rw [hw0]; norm_num
  have e1 : (1 : ℚ) * 16 * ((word_le 0xD7 0x02 : ℕ) : ℚ) = 11632 := by
    rw [hw1]; norm_num
  have hv : tsl2561cs_calculate_lux pow14 46528 11632 =
      0.0315 * 46528 - 0.0593 * 46528 * pow14 0.25 := by
    have hr : (11632 : ℚ) / 46528 = 0.25 := by norm_num
    norm_num [tsl2561cs_calculate_lux, hr]
  have hpos : (0 : ℚ) < 0.0315 * 46528 - 0.0593 * 46528 * pow14 0.25 := by nlinarith
  have hsent : 0.0315 * 46528 - 0.0593 * 46528 * pow14 0.25 ≠ (VAL_INVALID : ℚ) := by
    have : ((VAL_INVALID : ℤ) : ℚ) = -1 := by norm_num [VAL_INVALID]
    rw [this]
    exact (by linarith : (-1 : ℚ) < 0.0315 * 46528 - 0.0593 * 46528 * pow14 0.25).ne'
  simp only [tsl2561X_get_lux, e0, e1, hv, lux_cache_update]
  rw [if_pos hsent]

theorem get_lux_reference_reading_witness :
    tsl2561X_get_lux (tsl2561cs_calculate_lux (fun _ => 1 / 7)) 1 16 0x5C 0x0B 0xD7 0x02 0 =
      ((round1 (0.0315 * 46528 - 0.0593 * 46528 * (1 / 7 : ℚ)), "lum", "lux"),
        0.0315 * 46528 - 0.0593 * 46528 * (1 / 7 : ℚ)) :=
  get_lux_reference_reading (fun _ => 1 / 7) 0 (by norm_num) (by norm_num)

lemma cs_calculate_lux_nonneg (pow14 : ℚ → ℚ) (c0 c1 : ℚ) (h0 : 0 < c0) (h1 : 0 ≤ c1)
    (hp : ∀ x, 0 ≤ x → x ≤ 0.52 → 0 ≤ pow14 x ∧ pow14 x ≤ (4 / 5) * x) :
    0 ≤ tsl2561cs_calculate_lux pow14 c0 c1 := by
  have hne : c0 ≠ 0 := ne_of_gt h0
  simp only [tsl2561cs_calculate_lux]
  rw [if_neg hne]
  split_ifs with hb1 hb2 hb3 hb4
  · obtain ⟨hq0, hq1⟩ := hp (c1 / c0) hb1.1 hb1.2
    nlinarith [mul_le_mul_of_nonneg_left hb1.2 h0.le,
      mul_le_mul_of_nonneg_left hq1 h0.le, mul_nonneg h0.le hq0,
      (div_le_iff₀ h0).mp hb1.2]
  · have hc1 : c1 ≤ 0.65 * c0 := (div_le_iff₀ h0).mp hb2.2
    linarith
  · have hc1 : c1 ≤ 0.80 * c0 := (div_le_iff₀ h0).mp hb3.2
    linarith
  · have hc1 : c1 ≤ 1.30 * c0 := (div_le_iff₀ h0).mp hb4.2
    linarith
  · exact le_refl 0

lemma t_calculate_lux_nonneg (pow14 : ℚ → ℚ) (c0 c1 : ℚ) (h0 : 0 < c0) (h1 : 0 ≤ c1)
    (hp : ∀ x, 0 ≤ x → x ≤ 0.52 → 0 ≤ pow14 x ∧ pow14 x ≤ (4 / 5) * x) :
    0 ≤ tsl2561t_calculate_lux pow14 c0 c1 := by
  have hne : c0 ≠ 0 := ne_of_gt h0
  simp only [tsl2561t_calculate_lux]
  rw [if_neg hne]
  split_ifs with hb1 hb2 hb3 hb4
  · obtain ⟨hq0, hq1⟩ := hp (c1 / c0) hb1.1 (le_trans hb1.2 (by norm_num))
    nlinarith [mul_le_mul_of_nonneg_left hb1.2 h0.le,
      mul_le_mul_of_nonneg_left hq1 h0.le, mul_nonneg h0.le hq0,
      (div_le_iff₀ h0).mp hb1.2]
  · have hc1 : c1 ≤ 0.61 * c0 := (div_le_iff₀ h0).mp hb2.2
    linarith
  · have hc1 : c1 ≤ 0.80 * c0 := (div_le_iff₀ h0).mp hb3.2
    linarith
  · have hc1 : c1 ≤ 1.30 * c0 := (div_le_iff₀ h0).mp hb4.2
    linarith
  · exact le_refl 0

/-- C10: with strictly positive channel0 and nonnegative channel1, both lux
formulas return a nonnegative value in every ratio band (the pow14
hypothesis states bounds that the real power x^1.4 satisfies on the lowest
band); in particular the result is never the sentinel -1, so get_lux's
cache update always adopts such a reading. -/
theorem calculate_lux_positive_channel0_nonneg (pow14 : ℚ → ℚ) (c0 c1 : ℚ)
    (h0 : 0 < c0) (h1 : 0 ≤ c1)
    (hp : ∀ x, 0 ≤ x → x ≤ 0.52 → 0 ≤ pow14 x ∧ pow14 x ≤ (4 / 5) * x) :
    0 ≤ tsl2561cs_calculate_lux pow14 c0 c1 ∧
    0 ≤ tsl2561t_calculate_lux pow14 c0 c1 ∧
    tsl2561cs_calculate_lux pow14 c0 c1 ≠ (VAL_INVALID : ℚ) ∧
    tsl2561t_calculate_lux pow14 c0 c1 ≠ (VAL_INVALID : ℚ) ∧
    (∀ lux_value : ℚ,
      lux_cache_update (tsl2561cs_calculate_lux pow14 c0 c1) lux_value =
        tsl2561cs_calculate_lux pow14 c0 c1 ∧
      lux_cache_update (tsl2561t_calculate_lux pow14 c0 c1) lux_value =
        tsl2561t_calculate_lux pow14 c0 c1) := by
  have hcs := cs_calculate_lux_nonneg pow14 c0 c1 h0 h1 hp
  have ht := t_calculate_lux_nonneg pow14 c0 c1 h0 h1 hp
  have hinv : ((VAL_INVALID : ℤ) : ℚ) = -1 := by norm_num [VAL_INVALID]
  have hcsne : tsl2561cs_calculate_lux pow14 c0 c1 ≠ (VAL_INVALID : ℚ) := by
    rw [hinv]; exact ((by linarith : (-1 : ℚ) < tsl2561cs_calculate_lux pow14 c0 c1)).ne'
  have htne : tsl2561t_calculate_lux pow14 c0 c1 ≠ (VAL_INVALID : ℚ) := by
    rw [hinv]; exact ((by linarith : (-1 : ℚ) < tsl2561t_calculate_lux pow14 c0 c1)).ne'
  refine ⟨hcs, ht, hcsne, htne, fun lux_value => ⟨?_, ?_⟩⟩
  · rw [lux_cache_update, if_pos hcsne]
  · rw [lux_cache_update, if_pos htne]

theorem calculate_lux_positive_channel0_nonneg_witness :
    0 ≤ tsl2561cs_calculate_lux (fun x => (2 / 5) * x) 1 1 ∧
    0 ≤ tsl2561t_calculate_lux (fun x => (2 / 5) * x) 1 1 ∧
    lux_cache_update (tsl2561cs_calculate_lux (fun x => (2 / 5) * x) 1 1) 7 =
      tsl2561cs_calculate_lux (fun x => (2 / 5) * x) 1 1 := by
  have h := calculate_lux_positive_channel0_nonneg (fun x => (2 / 5) * x) 1 1
    (by norm_num) (by norm_num) (fun x hx0 hx1 => by constructor <;> nlinarith)
  exact ⟨h.1, h.2.1, (h.2.2.2.2 7).1⟩
